import Mathlib

/-!
Shallow embedding of the website-analysis pipeline of `backend/app/services/analyzer.py`
and the progress endpoint of `backend/app/api/analyze.py`.

Modelling conventions:
* Python machine integers are `Int`; Python floats are modelled as exact rationals `ℚ`
  (the weights 0.40/0.35/0.15/0.10 become 2/5, 7/20, 3/20, 1/10).
* Each check performs one HTTP fetch; the outcome of that fetch (a response, or a raised
  exception) is passed to the embedded check as a `FetchOutcome`, so the `try/except`
  blocks of the Python code become a `match` on the outcome.
* Python's substring test `pat in s` is `str_contains`, `s.split(pat)` is
  `String.splitOn`, `s.lower()` is `String.toLower`, `s.startswith(tuple)` is
  `starts_with_any`, and whitespace tokenisation `s.split()` is `py_words`
  (texts are modelled with single blanks between words).
* The heterogeneous JSON `details` dictionaries become association lists over `DetailVal`.
-/

/-- The `AnalysisStatus` enum of `models.py`. -/
inductive AnalysisStatus
| pending
| analyzing
| complete
| failed
deriving DecidableEq, Repr

/-- The `CheckCategory` enum of `models.py`; `structure_` embeds the Python member
`structure` (a Lean keyword). -/
inductive CheckCategory
| technical
| structure_
| content
| ai_readiness
deriving DecidableEq, Repr

/-- The `CheckStatus` enum of `models.py` (`pass_check` carries the value `"pass"`). -/
inductive CheckStatus
| pass_check
| warn
| fail
deriving DecidableEq, Repr

/-- The `ImpactLevel` enum of `models.py`. -/
inductive ImpactLevel
| critical
| high
| medium
| low
deriving DecidableEq, Repr

/-- The `FixDifficulty` enum of `models.py`. -/
inductive FixDifficulty
| easy
| medium
| hard
deriving DecidableEq, Repr

/-- One JSON value stored inside a `details` dictionary. -/
inductive DetailVal
| str (s : String)
| int (n : Int)
| strList (l : List String)
deriving DecidableEq, Repr

/-- A `details` JSON dictionary: an association list in insertion order. -/
abbrev Details := List (String × DetailVal)

/-- One check-result dictionary as produced by the check methods of
`WebsiteAnalyzer` (the keys of the Python dict become fields). -/
structure CheckResult where
  check_name : String
  check_category : CheckCategory
  status : CheckStatus
  score : Int
  details : Details
  recommendations : Option String
  impact_level : ImpactLevel
  fix_difficulty : FixDifficulty
  fix_time_estimate : Option String
deriving DecidableEq, Repr

/-- The part of an HTTP response the checks read. -/
structure HttpResponse where
  status_code : Nat
  text : String
deriving DecidableEq, Repr

/-- Outcome of the single `http_client.get` a check performs: a response, or a
raised exception carrying `str(e)`. -/
inductive FetchOutcome
| ok (r : HttpResponse)
| exc (msg : String)
deriving DecidableEq, Repr

/-- Whether `pat` occurs as a contiguous sublist of `l`. -/
def is_infix_of (pat : List Char) : List Char → Bool
| [] => pat.isEmpty
| c :: rest => pat.isPrefixOf (c :: rest) || is_infix_of pat rest

/-- Python's substring test `pat in s`. -/
def str_contains (s pat : String) : Bool :=
  is_infix_of pat.data s.data

/-- The suffix of `l` after the first occurrence of `sep` (empty when `sep`
does not occur). -/
def after_first (sep : List Char) : List Char → List Char
| [] => []
| c :: rest =>
  if sep.isPrefixOf (c :: rest) then (c :: rest).drop sep.length
  else after_first sep rest

/-- The prefix of `l` up to (excluding) the first occurrence of `sep`
(all of `l` when `sep` does not occur). -/
def up_to (sep : List Char) : List Char → List Char
| [] => []
| c :: rest =>
  if sep.isPrefixOf (c :: rest) then []
  else c :: up_to sep rest

/-- Python's `s.split(sep)[1]` for a separator known to occur in `s`: the chunk
between the first and second occurrences of `sep` (the whole remaining suffix
when `sep` occurs only once). -/
def split_second (s sep : String) : String :=
  ⟨up_to sep.data (after_first sep.data s.data)⟩

/-- Python's `s.split(sep)` for a one-character separator (keeps empty chunks). -/
def split_char (sep : Char) : List Char → List (List Char)
| [] => [[]]
| c :: rest =>
  if c = sep then [] :: split_char sep rest
  else
    match split_char sep rest with
    | [] => [[c]]
    | h :: t => (c :: h) :: t

/-- Python's `s.split("\n")`. -/
def split_newlines (s : String) : List String :=
  (split_char (Char.ofNat 10) s.data).map (fun l => ⟨l⟩)

/-- Python's `s.lower()` (ASCII texts). -/
def str_lower (s : String) : String :=
  ⟨s.data.map Char.toLower⟩

/-- Python's `s.startswith(prefixes)` for a tuple of prefixes. -/
def starts_with_any (s : String) (ps : List String) : Bool :=
  ps.any (fun p => p.data.isPrefixOf s.data)

/-- Python's whitespace tokenisation `s.split()` (texts are modelled with single
blanks between words, so splitting on the blank and dropping empties agrees). -/
def py_words (s : String) : List String :=
  ((split_char ' ' s.data).map (fun l : List Char => (⟨l⟩ : String))).filter (fun w => w ≠ "")

/-- The constant `WebsiteAnalyzer.AI_BOTS`: the list of AI bots checked in robots.txt. -/
def AI_BOTS : List String :=
  ["GPTBot", "ChatGPT-User", "Claude-Web", "anthropic-ai",
   "Bard", "Gemini", "Bingbot", "msnbot", "facebook",
   "facebookexternalhit", "PerplexityBot", "CCBot",
   "YouBot", "Diffbot", "SemrushBot", "AhrefsBot"]

/-- One iteration of the bot-classification loop of `check_robots_txt` (lines
148-159): append `bot` (in its original casing) to `blocked_bots` or
`allowed_bots`. `robots_content` is already lower-cased by the caller. -/
def classify_step (robots_content : String) (acc : List String × List String)
    (bot : String) : List String × List String :=
  let bot_lower := str_lower bot
  if str_contains robots_content ("user-agent: " ++ bot_lower) then
    let lines_after :=
      (split_newlines (split_second robots_content ("user-agent: " ++ bot_lower))).take 5
    if lines_after.any (fun line => str_contains line "disallow: /") then
      (acc.1 ++ [bot], acc.2)
    else
      (acc.1, acc.2 ++ [bot])
  else if str_contains robots_content "user-agent: *" &&
          str_contains robots_content "disallow: /" then
    (acc.1 ++ [bot], acc.2)
  else acc

/-- The bot-classification loop of `check_robots_txt`: folds over `AI_BOTS`
building `(blocked_bots, allowed_bots)` in order. -/
def classify_bots (robots_content : String) : List String × List String :=
  AI_BOTS.foldl (classify_step robots_content) ([], [])

/-- Embedding of `WebsiteAnalyzer._get_robots_fix_instructions`. -/
def get_robots_fix_instructions (_blocked_bots : List String) : String :=
  String.intercalate "\n"
    ["Your website is INVISIBLE to ChatGPT and other AI search engines!",
     "",
     "To fix this critical issue:",
     "1. Open your robots.txt file",
     "2. Add these lines:",
     "",
     "User-agent: GPTBot",
     "Allow: /",
     "",
     "User-agent: ChatGPT-User",
     "Allow: /",
     "",
     "User-agent: Claude-Web",
     "Allow: /",
     "",
     "3. Save and upload to your server",
     "4. AI bots will be able to access your site within 48 hours",
     "",
     "Expected outcome: 40% increase in AI-driven traffic"]

/-- Embedding of `WebsiteAnalyzer.check_robots_txt` (lines 125-213), as a function of the
outcome of fetching `/robots.txt`. -/
def check_robots_txt (fetch : FetchOutcome) : CheckResult :=
  match fetch with
  | .exc e =>
    { check_name := "AI Bot Access"
      check_category := .ai_readiness
      status := .fail
      score := 0
      details := [("error", .str e)]
      recommendations := some "Unable to check robots.txt"
      impact_level := .medium
      fix_difficulty := .medium
      fix_time_estimate := some "15 minutes" }
  | .ok response =>
    if response.status_code ≠ 200 then
      { check_name := "AI Bot Access"
        check_category := .ai_readiness
        status := .warn
        score := 50
        details := [("message", .str "robots.txt not found")]
        recommendations := some "Create a robots.txt file to control AI bot access"
        impact_level := .high
        fix_difficulty := .easy
        fix_time_estimate := some "5 minutes" }
    else
      let robots_content := str_lower response.text
      let blocked_bots := (classify_bots robots_content).1
      if "gptbot" ∈ blocked_bots ∨ "chatgpt-user" ∈ blocked_bots then
        { check_name := "AI Bot Access"
          check_category := .ai_readiness
          status := .fail
          score := 0
          details := [("blocked_bots", .strList blocked_bots),
                      ("message", .str "ChatGPT Cannot Access Your Website!")]
          recommendations := some (get_robots_fix_instructions blocked_bots)
          impact_level := .critical
          fix_difficulty := .easy
          fix_time_estimate := some "5 minutes" }
      else if !blocked_bots.isEmpty then
        { check_name := "AI Bot Access"
          check_category := .ai_readiness
          status := .warn
          score := 60
          details := [("blocked_bots", .strList blocked_bots)]
          recommendations := some ("Some AI bots are blocked: " ++ String.intercalate ", " blocked_bots)
          impact_level := .high
          fix_difficulty := .easy
          fix_time_estimate := some "5 minutes" }
      else
        { check_name := "AI Bot Access"
          check_category := .ai_readiness
          status := .pass_check
          score := 100
          details := [("message", .str "All AI bots have access")]
          recommendations := none
          impact_level := .low
          fix_difficulty := .easy
          fix_time_estimate := none }

/-- Embedding of `WebsiteAnalyzer.check_llms_txt` (lines 240-281), as a function of the
outcome of fetching `/llms.txt`. -/
def check_llms_txt (fetch : FetchOutcome) : CheckResult :=
  match fetch with
  | .exc _ =>
    { check_name := "LLMs.txt File"
      check_category := .ai_readiness
      status := .warn
      score := 70
      details := [("message", .str "Could not check for llms.txt")]
      recommendations := some "Add llms.txt file for better AI understanding"
      impact_level := .medium
      fix_difficulty := .easy
      fix_time_estimate := some "10 minutes" }
  | .ok response =>
    if response.status_code = 200 then
      { check_name := "LLMs.txt File"
        check_category := .ai_readiness
        status := .pass_check
        score := 100
        details := [("message", .str "llms.txt file found")]
        recommendations := none
        impact_level := .low
        fix_difficulty := .easy
        fix_time_estimate := none }
    else
      { check_name := "LLMs.txt File"
        check_category := .ai_readiness
        status := .warn
        score := 70
        details := [("message", .str "llms.txt file not found")]
        recommendations := some "Create an llms.txt file to provide context for AI systems"
        impact_level := .medium
        fix_difficulty := .easy
        fix_time_estimate := some "10 minutes" }

/-- Embedding of `WebsiteAnalyzer.check_sitemap` (lines 504-545), as a function of the
outcome of fetching `/sitemap.xml`. -/
def check_sitemap (fetch : FetchOutcome) : CheckResult :=
  match fetch with
  | .exc _ =>
    { check_name := "Sitemap"
      check_category := .technical
      status := .warn
      score := 60
      details := [("message", .str "Could not check for sitemap")]
      recommendations := some "Add sitemap.xml for better crawlability"
      impact_level := .medium
      fix_difficulty := .easy
      fix_time_estimate := some "30 minutes" }
  | .ok response =>
    if response.status_code = 200 then
      { check_name := "Sitemap"
        check_category := .technical
        status := .pass_check
        score := 100
        details := [("message", .str "Sitemap.xml found")]
        recommendations := none
        impact_level := .low
        fix_difficulty := .easy
        fix_time_estimate := none }
    else
      { check_name := "Sitemap"
        check_category := .technical
        status := .warn
        score := 60
        details := [("message", .str "Sitemap.xml not found")]
        recommendations := some "Create a sitemap.xml file to help AI bots discover all your pages"
        impact_level := .medium
        fix_difficulty := .easy
        fix_time_estimate := some "30 minutes" }

/-- One parsed HTML element as seen by the content checks: its tag name and its
`get_text(strip=True)` text. A page is modelled as the list of sibling elements
in document order (`find_next_sibling` of the element at index `i` is the
element at index `i+1`). -/
structure Element where
  tag : String
  text : String
deriving DecidableEq, Repr

/-- The heading test of `check_direct_answers` line 786: `soup.find_all` over
the four heading tags. -/
def is_heading (e : Element) : Bool :=
  e.tag = "h1" || e.tag = "h2" || e.tag = "h3" || e.tag = "h4"

/-- The interrogative test of lines 328 and 788:
`'?' in text or text.lower().startswith(('how', 'what', 'why', 'when', 'where', 'who'))`. -/
def is_question_text (t : String) : Bool :=
  str_contains t "?" ||
    starts_with_any (str_lower t) ["how", "what", "why", "when", "where", "who"]

/-- One record appended to the `question_headings` list of `check_direct_answers`
(lines 795-805): the question text, `has_direct_answer`, and `answer_length`. -/
structure QuestionRecord where
  question : String
  has_direct_answer : Bool
  answer_length : Nat
deriving DecidableEq, Repr

/-- The accumulation loop of `check_direct_answers` (lines 785-805): for every
interrogative heading whose `find_next_sibling` exists and is a `p`, record
whether the paragraph text has 40-60 words; headings followed by anything else
(or by nothing) are skipped entirely. -/
def question_records : List Element → List QuestionRecord
| [] => []
| e :: rest =>
  if is_heading e && is_question_text e.text then
    match rest.head? with
    | some nxt =>
      if nxt.tag = "p" then
        let word_count := (py_words nxt.text).length
        { question := e.text
          has_direct_answer := decide (40 ≤ word_count ∧ word_count ≤ 60)
          answer_length := word_count } :: question_records rest
      else question_records rest
    | none => question_records rest
  else question_records rest

/-- Embedding of `WebsiteAnalyzer.check_direct_answers` (lines 782-861). -/
def check_direct_answers (page : List Element) : CheckResult :=
  let qs := question_records page
  if qs.isEmpty then
    { check_name := "Direct Answers"
      check_category := .content
      status := .fail
      score := 0
      details := [("message", .str "No question-based headings found")]
      recommendations := some "Add question headings with 40-60 word answers for AI snippets"
      impact_level := .critical
      fix_difficulty := .medium
      fix_time_estimate := some "1 hour" }
  else
    let with_answers := (qs.filter (fun q => q.has_direct_answer)).length
    if with_answers = qs.length then
      { check_name := "Direct Answers"
        check_category := .content
        status := .pass_check
        score := 100
        details := [("questions_with_answers", .int with_answers)]
        recommendations := none
        impact_level := .low
        fix_difficulty := .easy
        fix_time_estimate := none }
    else if 0 < with_answers then
      { check_name := "Direct Answers"
        check_category := .content
        status := .warn
        score := 60
        details := [("total_questions", .int qs.length),
                    ("with_direct_answers", .int with_answers)]
        recommendations := some ("Add 40-60 word answers after " ++
          toString (qs.length - with_answers) ++ " questions")
        impact_level := .high
        fix_difficulty := .easy
        fix_time_estimate := some "30 minutes" }
    else
      { check_name := "Direct Answers"
        check_category := .content
        status := .fail
        score := 20
        details := [("questions_without_answers", .int qs.length)]
        recommendations := some "Add 40-60 word direct answers after each question heading"
        impact_level := .critical
        fix_difficulty := .medium
        fix_time_estimate := some "1 hour" }

/-- Spec-side view: the interrogative headings of a page paired with their
following sibling, via `page.zip page.tail` (a heading in last position has no
following sibling and no pair). -/
def question_pairs (page : List Element) : List (Element × Element) :=
  (page.zip page.tail).filter (fun pr => is_heading pr.1 && is_question_text pr.1.text)

/-- Spec-side view: the counted pairs — interrogative headings whose following
sibling is a paragraph. -/
def counted_pairs (page : List Element) : List (Element × Element) :=
  (question_pairs page).filter (fun pr => pr.2.tag = "p")

/-- Spec-side view: the counted pairs whose paragraph qualifies as a direct
answer (40-60 words). -/
def qualified_pairs (page : List Element) : List (Element × Element) :=
  (counted_pairs page).filter
    (fun pr => decide (40 ≤ (py_words pr.2.text).length ∧ (py_words pr.2.text).length ≤ 60))

/-- Modelled from the spec wording of the direct-answer check (claim C7): for
each interrogative heading inspect the immediately following block, an answer
of 40-60 words counts as direct, and the verdict derives from the fraction of
interrogative headings with a qualifying direct answer: 0 headings → fail/0;
all qualify → pass/100; some but not all → warn/60; none → fail/20. -/
def spec_direct_answers_verdict (page : List Element) : CheckStatus × Int :=
  let total := (page.filter (fun e => is_heading e && is_question_text e.text)).length
  let qualified :=
    ((page.zip page.tail).filter (fun pr =>
      is_heading pr.1 && is_question_text pr.1.text &&
        decide (40 ≤ (py_words pr.2.text).length ∧ (py_words pr.2.text).length ≤ 60))).length
  if total = 0 then (.fail, 0)
  else if qualified = total then (.pass_check, 100)
  else if 0 < qualified then (.warn, 60)
  else (.fail, 20)

/-- A text of `n` words (used as concrete page content in witnesses). -/
def mk_words (n : Nat) : String :=
  ⟨(List.replicate n ['w', ' ']).flatten⟩

/-- The `category_scores` dictionary of `calculate_overall_score` (lines
960-965): one list of scores per category, in insertion order. -/
structure CatScores where
  ai_readiness : List Int
  content : List Int
  structure_ : List Int
  technical : List Int
deriving DecidableEq, Repr

/-- One step of the loop at lines 967-970: append `result["score"]` to its
category's list. -/
def add_score (cs : CatScores) (r : CheckResult) : CatScores :=
  match r.check_category with
  | .ai_readiness => { cs with ai_readiness := cs.ai_readiness ++ [r.score] }
  | .content => { cs with content := cs.content ++ [r.score] }
  | .structure_ => { cs with structure_ := cs.structure_ ++ [r.score] }
  | .technical => { cs with technical := cs.technical ++ [r.score] }

/-- The grouping loop of `calculate_overall_score`. -/
def category_score_lists (results : List CheckResult) : CatScores :=
  results.foldl add_score ⟨[], [], [], []⟩

/-- The per-category average of lines 973-978: mean of the scores, or 100 for a
category with no scores. -/
def cat_average (scores : List Int) : ℚ :=
  if !scores.isEmpty then ((scores.map (fun s : Int => (s : ℚ))).sum) / scores.length
  else 100

/-- Python's `int(x)` conversion: truncation toward zero. -/
def py_int (x : ℚ) : Int :=
  if 0 ≤ x then Int.floor x else Int.ceil x

/-- The weighted sum of lines 981-986 (the float weights 0.40/0.35/0.15/0.10
modelled as exact rationals). -/
def weighted_score (results : List CheckResult) : ℚ :=
  let cs := category_score_lists results
  cat_average cs.ai_readiness * (40 / 100) +
  cat_average cs.content * (35 / 100) +
  cat_average cs.structure_ * (15 / 100) +
  cat_average cs.technical * (10 / 100)

/-- Embedding of `WebsiteAnalyzer.calculate_overall_score` (lines 958-988). -/
def calculate_overall_score (results : List CheckResult) : Int :=
  py_int (weighted_score results)

/-- Spec-side view: the scores of one category, by filtering the result list. -/
def bucket (results : List CheckResult) (c : CheckCategory) : List Int :=
  (results.filter (fun r => r.check_category = c)).map (fun r => r.score)

/-- Spec-side view: the arithmetic mean of the `score` field across one
category's results; a category with zero results defaults to 100. -/
def spec_cat_mean (results : List CheckResult) (c : CheckCategory) : ℚ :=
  if bucket results c = [] then 100
  else (((bucket results c).map (fun s : Int => (s : ℚ))).sum) / (bucket results c).length

/-- The fixed, ordered category set of the aggregator. -/
def all_categories : List CheckCategory :=
  [.ai_readiness, .content, .structure_, .technical]

/-- The fixed weight table: 0.40 / 0.35 / 0.15 / 0.10 for
ai_readiness / content / structure / technical. -/
def W : CheckCategory → ℚ
| .ai_readiness => 40 / 100
| .content => 35 / 100
| .structure_ => 15 / 100
| .technical => 10 / 100

/-- The aggregator's weighted sum, generalised to an arbitrary weight table
(the code is the instance at the fixed table `W`). -/
def weighted_sum_w (w : CheckCategory → ℚ) (results : List CheckResult) : ℚ :=
  (all_categories.map (fun c => w c * spec_cat_mean results c)).sum

/-- The aggregator generalised to an arbitrary weight table. -/
def overall_score_w (w : CheckCategory → ℚ) (results : List CheckResult) : Int :=
  py_int (weighted_sum_w w results)

/-- The weighted sum restricted to the categories other than `c`. -/
def rest_weighted_sum (w : CheckCategory → ℚ) (results : List CheckResult)
    (c : CheckCategory) : ℚ :=
  ((all_categories.filter (fun c2 => c2 ≠ c)).map (fun c2 => w c2 * spec_cat_mean results c2)).sum

/-- The fields of one `AnalysisRun` row that the pipeline reads or writes
(`models.py` lines 82-103); `results` is the run's set of `AnalysisResult`
rows in insertion order (append-only, written by `save_results`), and
`completed_at` records whether the timestamp is set. -/
structure RunState where
  status : AnalysisStatus
  progress : Int
  overall_score : Option Int
  error_message : Option String
  completed_at : Bool
  total_checks_run : Int
  total_issues_found : Int
  chatgpt_score : Option Int
  perplexity_score : Option Int
  claude_score : Option Int
  google_ai_score : Option Int
  bing_chat_score : Option Int
  results : List CheckResult
deriving DecidableEq, Repr

/-- The run state created by the boundary layer (`analyze.py` lines 139-145):
pending, progress 0, everything else unset. -/
def initial_run : RunState :=
  { status := .pending
    progress := 0
    overall_score := none
    error_message := none
    completed_at := false
    total_checks_run := 0
    total_issues_found := 0
    chatgpt_score := none
    perplexity_score := none
    claude_score := none
    google_ai_score := none
    bing_chat_score := none
    results := [] }

/-- The "ChatGPT Optimization" result of `run_ai_analysis` (lines 921-931). -/
def chatgpt_result : CheckResult :=
  { check_name := "ChatGPT Optimization"
    check_category := .ai_readiness
    status := .pass_check
    score := 75
    details := [("compatibility_score", .int 75)]
    recommendations := some "Optimize for ChatGPT by adding more Q&A content"
    impact_level := .medium
    fix_difficulty := .medium
    fix_time_estimate := some "2 hours" }

/-- The "Perplexity Readiness" result of `run_ai_analysis` (lines 934-944). -/
def perplexity_result : CheckResult :=
  { check_name := "Perplexity Readiness"
    check_category := .ai_readiness
    status := .pass_check
    score := 80
    details := [("compatibility_score", .int 80)]
    recommendations := none
    impact_level := .low
    fix_difficulty := .easy
    fix_time_estimate := none }

/-- Embedding of `WebsiteAnalyzer.run_ai_analysis` (lines 913-956): returns the two fixed
mock results and, when the run row exists, writes the five constant AI
sub-scores; the `url` argument is never inspected. -/
def run_ai_analysis (_url : String) (run : Option RunState) :
    List CheckResult × Option RunState :=
  let results := [chatgpt_result, perplexity_result]
  (results,
    run.map (fun r =>
      { r with
        chatgpt_score := some 75
        perplexity_score := some 80
        claude_score := some 70
        google_ai_score := some 85
        bing_chat_score := some 78 }))

/-- The count at line 88:
`sum(1 for r in results if r["status"] != CheckStatus.pass_check)`. -/
def count_issues (results : List CheckResult) : Int :=
  ((results.filter (fun r => r.status ≠ CheckStatus.pass_check)).length : Int)

/-- Environment of one `analyze_website` invocation. The three network-driven
stages return whatever lists their checks produced (quantified over all lists,
since they depend on the target's responses); stage 4 is the deterministic
`run_ai_analysis`. `fail_at = some k` injects an unrecovered pipeline-level
exception while stage `k` (0-3) is running — per the run state machine, the
event that triggers the `analyzing → failed` transition — carrying message
`err_msg`; `fail_at = none` is a fault-free invocation. -/
structure Env where
  url : String
  stage1 : List CheckResult
  stage2 : List CheckResult
  stage3 : List CheckResult
  fail_at : Option Nat
  err_msg : String

/-- The `except` branch of `analyze_website` (lines 95-101): mark the run
failed and record the error message. -/
def fail_state (s : RunState) (msg : String) : RunState :=
  { s with status := .failed, error_message := some msg }

/-- Embedding of `WebsiteAnalyzer.analyze_website` (lines 36-101) as the sequence of run
states committed to the database, in order: one entry per `db.commit()`
(status flip, each `update_progress`, each `save_results` batch, the AI sub-score
write, the finalisation, and the closing `update_progress(100)`); when a stage
raises, the trace ends with the `except`-branch commit. -/
def analyze_website_trace (env : Env) (st0 : RunState) : List RunState :=
  let s1 := { st0 with status := .analyzing }
  let s2 := { s1 with progress := 5 }
  if env.fail_at = some 0 then [s1, s2, fail_state s2 env.err_msg] else
  let s3 := { s2 with results := s2.results ++ env.stage1 }
  let s4 := { s3 with progress := 20 }
  let s5 := { s4 with progress := 25 }
  if env.fail_at = some 1 then [s1, s2, s3, s4, s5, fail_state s5 env.err_msg] else
  let s6 := { s5 with results := s5.results ++ env.stage2 }
  let s7 := { s6 with progress := 45 }
  let s8 := { s7 with progress := 50 }
  if env.fail_at = some 2 then
    [s1, s2, s3, s4, s5, s6, s7, s8, fail_state s8 env.err_msg] else
  let s9 := { s8 with results := s8.results ++ env.stage3 }
  let s10 := { s9 with progress := 70 }
  let s11 := { s10 with progress := 75 }
  if env.fail_at = some 3 then
    [s1, s2, s3, s4, s5, s6, s7, s8, s9, s10, s11, fail_state s11 env.err_msg] else
  let ai := run_ai_analysis env.url (some s11)
  let s12 := ai.2.getD s11
  let s13 := { s12 with results := s12.results ++ ai.1 }
  let s14 := { s13 with progress := 95 }
  let new_results := env.stage1 ++ env.stage2 ++ env.stage3 ++ ai.1
  let s15 :=
    { s14 with
      status := .complete
      overall_score := some (calculate_overall_score new_results)
      progress := 100
      completed_at := true
      total_checks_run := (new_results.length : Int)
      total_issues_found := count_issues new_results }
  let s16 := { s15 with progress := 100 }
  [s1, s2, s3, s4, s5, s6, s7, s8, s9, s10, s11, s12, s13, s14, s15, s16]

/-- What one poll of the database inside `get_analysis_progress` observes about
the run: its status, progress, overall score, and stored results. -/
structure Obs where
  status : AnalysisStatus
  progress : Int
  overall_score : Option Int
  results : List CheckResult
deriving DecidableEq, Repr

/-- One server-sent event of `get_analysis_progress`: a progress update (with
up to 10 partial results), the single terminal `complete` event, or the
not-found error payload. -/
inductive SseEvent
| progress (status : AnalysisStatus) (progressValue : Int) (overall : Option Int)
    (payload : List (String × CheckStatus × Int × CheckCategory))
| complete (status : AnalysisStatus)
| notFound
deriving DecidableEq, Repr

/-- The terminal-status test at line 227:
`analysis.status in [AnalysisStatus.complete, AnalysisStatus.failed]`. -/
def is_terminal (s : AnalysisStatus) : Bool :=
  s = AnalysisStatus.complete || s = AnalysisStatus.failed

/-- The payload sent as `partial_results` (lines 196-217): the first 10 stored
results, projected to name, status, score and category. -/
def results_payload (o : Obs) : List (String × CheckStatus × Int × CheckCategory) :=
  (o.results.take 10).map (fun r => (r.check_name, r.status, r.score, r.check_category))

/-- The `event_generator` loop of `get_analysis_progress` (`analyze.py` lines
181-233), as a function of the sequence of database observations the polls
make (`none` = the run row no longer exists): starting from
`last_progress = 0` and `last_status = None`, a poll emits a progress event
only when progress or status differs from the last emitted pair; after
emitting for a terminal status, exactly one `complete` event follows and the
loop breaks; a missing run emits the not-found payload and breaks. -/
def progress_stream : List (Option Obs) → Int → Option AnalysisStatus → List SseEvent
| [], _, _ => []
| none :: _, _, _ => [SseEvent.notFound]
| some o :: rest, last_progress, last_status =>
  if o.progress ≠ last_progress ∨ some o.status ≠ last_status then
    if is_terminal o.status then
      [SseEvent.progress o.status o.progress o.overall_score (results_payload o),
       SseEvent.complete o.status]
    else
      SseEvent.progress o.status o.progress o.overall_score (results_payload o) ::
        progress_stream rest o.progress (some o.status)
  else progress_stream rest last_progress last_status

/-- The SSE stream for a run, as invoked (initial `last_progress = 0`,
`last_status = None`). -/
def get_analysis_progress (polls : List (Option Obs)) : List SseEvent :=
  progress_stream polls 0 none

/-- Event discriminator: is this the terminal `complete` event? -/
def is_complete_event : SseEvent → Bool
| .complete _ => true
| _ => false

/-- There is a terminal observation among the polls before any missing-run
observation (the circumstance in which the claim requires exactly one terminal
notification). -/
def terminal_before_none : List (Option Obs) → Bool
| [] => false
| none :: _ => false
| some o :: rest => is_terminal o.status || terminal_before_none rest


/-! ### Helper lemmas about the robots.txt bot classification -/

/-- The classification step only ever appends the bot currently processed. -/
lemma classify_step_fst_sub (content : String) (acc : List String × List String)
    (bot : String) : ∀ x ∈ (classify_step content acc bot).1, x ∈ acc.1 ∨ x = bot := by
  intro x hx
  simp only [classify_step] at hx
  by_cases h1 : str_contains content ("user-agent: " ++ str_lower bot) = true
  · rw [if_pos h1] at hx
    by_cases h2 : (((split_newlines (split_second content ("user-agent: " ++ str_lower bot))).take 5).any
        fun line => str_contains line "disallow: /") = true
    · rw [if_pos h2] at hx
      simp only [List.mem_append, List.mem_singleton] at hx
      tauto
    · rw [if_neg h2] at hx
      exact Or.inl hx
  · rw [if_neg h1] at hx
    by_cases h3 : (str_contains content "user-agent: *" && str_contains content "disallow: /") = true
    · rw [if_pos h3] at hx
      simp only [List.mem_append, List.mem_singleton] at hx
      tauto
    · rw [if_neg h3] at hx
      exact Or.inl hx

/-- Every bot name the classification loop collects comes from the list it
folds over (in its original casing). -/
lemma foldl_classify_fst_sub (content : String) :
    ∀ (l : List String) (acc : List String × List String),
      ∀ x ∈ (l.foldl (classify_step content) acc).1, x ∈ acc.1 ∨ x ∈ l := by
  intro l
  induction l with
  | nil => intro acc x hx; exact Or.inl hx
  | cons b t ih =>
    intro acc x hx
    rcases ih (classify_step content acc b) x hx with h | h
    · rcases classify_step_fst_sub content acc b x h with h2 | h2
      · exact Or.inl h2
      · exact Or.inr (by simp [h2])
    · exact Or.inr (by simp [h])

/-- Every member of `blocked_bots` is one of the original-cased `AI_BOTS`. -/
lemma mem_classify_bots (content x : String) :
    x ∈ (classify_bots content).1 → x ∈ AI_BOTS := by
  intro h
  rcases foldl_classify_fst_sub content AI_BOTS ([], []) x h with h2 | h2
  · exact absurd h2 (List.not_mem_nil x)
  · exact h2

/-- The membership test at line 161 compares the lower-cased names against the
original-cased entries of `blocked_bots`, so it never succeeds. -/
lemma critical_test_false (content : String) :
    ¬("gptbot" ∈ (classify_bots content).1 ∨ "chatgpt-user" ∈ (classify_bots content).1) := by
  intro h
  rcases h with h | h
  · have := mem_classify_bots content "gptbot" h
    revert this; decide
  · have := mem_classify_bots content "chatgpt-user" h
    revert this; decide

/-! ### Claim theorems: C9, C2, C3 -/

/-- C9: for every URL and every existing run, the AI-analysis stage returns
exactly the two fixed results — "ChatGPT Optimization" (`pass`, 75) and
"Perplexity Readiness" (`pass`, 80) — and writes the constant sub-scores
75, 80, 70, 85, 78 to the run, independently of the target's content. -/
theorem c9_ai_analysis_constant (url : String) (r : RunState) :
    (run_ai_analysis url (some r)).1 = [chatgpt_result, perplexity_result] ∧
    chatgpt_result.check_name = "ChatGPT Optimization" ∧
    chatgpt_result.status = CheckStatus.pass_check ∧
    chatgpt_result.score = 75 ∧
    perplexity_result.check_name = "Perplexity Readiness" ∧
    perplexity_result.status = CheckStatus.pass_check ∧
    perplexity_result.score = 80 ∧
    (run_ai_analysis url (some r)).2 =
      some { r with
             chatgpt_score := some 75
             perplexity_score := some 80
             claude_score := some 70
             google_ai_score := some 85
             bing_chat_score := some 78 } :=
  ⟨rfl, rfl, rfl, rfl, rfl, rfl, rfl, rfl⟩

/-- C2 counterexample: an exception inside the llms.txt check is converted
into a `warn` result with score 70 and no `error` detail (and the sitemap
check into `warn`/60), not into the `fail`/0/`details.error` record the claim
asserts for every check. -/
theorem c2_counterexample :
    (check_llms_txt (.exc "connection reset")).status = CheckStatus.warn ∧
    (check_llms_txt (.exc "connection reset")).score = 70 ∧
    (check_llms_txt (.exc "connection reset")).details.lookup "error" = none ∧
    (check_sitemap (.exc "connection reset")).status = CheckStatus.warn ∧
    (check_sitemap (.exc "connection reset")).score = 60 :=
  ⟨rfl, rfl, rfl, rfl, rfl⟩

/-- C2 (amended): every exception raised inside a check is caught locally and
converted into a CheckResult (the embedded checks are total functions of the
fetch outcome, so nothing propagates), but the conversion is per-check: the
robots.txt check yields `fail`/0 with `details.error` set to the message,
while the llms.txt check yields `warn`/70 and the sitemap check `warn`/60,
each with only a `details.message`. -/
theorem c2_exception_conversion (e : String) :
    ((check_robots_txt (.exc e)).status = CheckStatus.fail ∧
     (check_robots_txt (.exc e)).score = 0 ∧
     (check_robots_txt (.exc e)).details = [("error", DetailVal.str e)]) ∧
    ((check_llms_txt (.exc e)).status = CheckStatus.warn ∧
     (check_llms_txt (.exc e)).score = 70 ∧
     (check_llms_txt (.exc e)).details =
       [("message", DetailVal.str "Could not check for llms.txt")]) ∧
    ((check_sitemap (.exc e)).status = CheckStatus.warn ∧
     (check_sitemap (.exc e)).score = 60 ∧
     (check_sitemap (.exc e)).details =
       [("message", DetailVal.str "Could not check for sitemap")]) :=
  ⟨⟨rfl, rfl, rfl⟩, ⟨rfl, rfl, rfl⟩, ⟨rfl, rfl, rfl⟩⟩

/-- C3 (code bug): the `fail`/0/`impact=critical` branch for a blocked primary
engine crawler is unreachable — the test `"gptbot" in blocked_bots` compares
the lower-cased name against the original-cased `"GPTBot"` stored in the list —
so no input ever produces a critical impact, and the concrete robots.txt
`User-agent: GPTBot` + `Disallow: /` (status 200) yields `warn`/60/high
instead of the claimed `fail`/0/critical. -/
theorem c3_critical_branch_unreachable :
    (∀ f : FetchOutcome,
      (check_robots_txt f).impact_level = ImpactLevel.high ∨
      (check_robots_txt f).impact_level = ImpactLevel.medium ∨
      (check_robots_txt f).impact_level = ImpactLevel.low) ∧
    (check_robots_txt (.ok ⟨200, "User-agent: GPTBot\nDisallow: /"⟩)).status = CheckStatus.warn ∧
    (check_robots_txt (.ok ⟨200, "User-agent: GPTBot\nDisallow: /"⟩)).score = 60 ∧
    (check_robots_txt (.ok ⟨200, "User-agent: GPTBot\nDisallow: /"⟩)).impact_level = ImpactLevel.high := by
  refine ⟨?_, by decide, by decide, by decide⟩
  intro f
  cases f with
  | exc e => exact Or.inr (Or.inl rfl)
  | ok r =>
    by_cases h200 : r.status_code ≠ 200
    · simp [check_robots_txt, if_pos h200]
    · simp only [check_robots_txt, if_neg h200]
      have hc := critical_test_false (str_lower r.text)
      rw [if_neg hc]
      rcases hb : (classify_bots (str_lower r.text)).1.isEmpty
      · simp [hb]
      · simp [hb]

/-! ### Claim theorems: C4 (orchestrator re-invocation) -/

/-- A result row already persisted for the completed run used in the C4
counterexample (the robots.txt check after a timeout). -/
def c4_old_result : CheckResult := check_robots_txt (.exc "timeout")

/-- A run that is already terminal (`complete`, progress 100) with one
persisted CheckResult. -/
def completed_run : RunState :=
  { status := .complete
    progress := 100
    overall_score := some 70
    error_message := none
    completed_at := true
    total_checks_run := 1
    total_issues_found := 1
    chatgpt_score := some 75
    perplexity_score := some 80
    claude_score := some 70
    google_ai_score := some 85
    bing_chat_score := some 78
    results := [c4_old_result] }

/-- A fault-free re-invocation whose first stage reproduces the same check
result that is already persisted. -/
def rerun_env : Env :=
  { url := "http://example.com"
    stage1 := [c4_old_result]
    stage2 := []
    stage3 := []
    fail_at := none
    err_msg := "" }

/-- C4 counterexample: re-invoking `analyze_website` on a run that is already
`complete` is not a no-op — its first committed update regresses the status to
`analyzing`, and the already-persisted result row ends up stored twice. -/
theorem c4_counterexample :
    completed_run.status = AnalysisStatus.complete ∧
    ((analyze_website_trace rerun_env completed_run).headD completed_run).status =
      AnalysisStatus.analyzing ∧
    (((analyze_website_trace rerun_env completed_run).getLastD completed_run).results.filter
      (fun r => r = c4_old_result)).length = 2 := by
  refine ⟨rfl, rfl, ?_⟩
  decide

/-- C4 (amended): `analyze_website` has no terminal-state guard — re-invoking
it for any run, terminal or not, first sets the status back to `analyzing`,
re-runs every stage, appends a complete fresh set of CheckResults after the
already-persisted ones, and (when no stage raises) finishes `complete` with
progress 100. -/
theorem c4_rerun_not_noop (env : Env) (st0 : RunState) (h : env.fail_at = none) :
    ((analyze_website_trace env st0).headD st0).status = AnalysisStatus.analyzing ∧
    ((analyze_website_trace env st0).getLastD st0).results =
      st0.results ++ (env.stage1 ++ env.stage2 ++ env.stage3 ++
        [chatgpt_result, perplexity_result]) ∧
    ((analyze_website_trace env st0).getLastD st0).status = AnalysisStatus.complete ∧
    ((analyze_website_trace env st0).getLastD st0).progress = 100 := by
  simp [analyze_website_trace, h, run_ai_analysis, List.append_assoc]

/-- Witness for `c4_rerun_not_noop` at the concrete completed run. -/
theorem c4_rerun_not_noop_witness :
    rerun_env.fail_at = none ∧
    (((analyze_website_trace rerun_env completed_run).headD completed_run).status =
        AnalysisStatus.analyzing ∧
      ((analyze_website_trace rerun_env completed_run).getLastD completed_run).results =
        completed_run.results ++ (rerun_env.stage1 ++ rerun_env.stage2 ++ rerun_env.stage3 ++
          [chatgpt_result, perplexity_result]) ∧
      ((analyze_website_trace rerun_env completed_run).getLastD completed_run).status =
        AnalysisStatus.complete ∧
      ((analyze_website_trace rerun_env completed_run).getLastD completed_run).progress = 100) :=
  ⟨rfl, c4_rerun_not_noop rerun_env completed_run rfl⟩

/-! ### Claim theorems: C6 (progress and error-message invariants) -/

/-- C6: starting from a freshly created run (pending, progress 0, no error),
along every database commit the orchestrator applies — for every stage outcome
and every injected stage failure — progress is non-decreasing, progress equals
100 exactly in the states whose status is `complete` (the failure path never
sets 100), and the error message is set exactly in the states whose status is
`failed`. -/
theorem c6_progress_invariants (env : Env) (st0 : RunState)
    (h1 : st0.status = AnalysisStatus.pending) (h2 : st0.progress = 0)
    (h3 : st0.error_message = none) :
    List.Chain' (fun a b => a.progress ≤ b.progress) (st0 :: analyze_website_trace env st0) ∧
    ∀ s ∈ st0 :: analyze_website_trace env st0,
      (s.progress = 100 ↔ s.status = AnalysisStatus.complete) ∧
      (s.error_message.isSome = true ↔ s.status = AnalysisStatus.failed) := by
  unfold analyze_website_trace
  by_cases f0 : env.fail_at = some 0
  · rw [if_pos f0]
    constructor
    · simp [List.chain'_cons, fail_state, h2]
    · intro s hs
      simp only [List.mem_cons, List.not_mem_nil, or_false] at hs
      rcases hs with rfl | rfl | rfl | rfl <;>
        simp [fail_state, h1, h2, h3]
  · rw [if_neg f0]
    by_cases f1 : env.fail_at = some 1
    · rw [if_pos f1]
      constructor
      · simp [List.chain'_cons, fail_state, h2]
      · intro s hs
        simp only [List.mem_cons, List.not_mem_nil, or_false] at hs
        rcases hs with rfl | rfl | rfl | rfl | rfl | rfl | rfl <;>
          simp [fail_state, h1, h2, h3]
    · rw [if_neg f1]
      by_cases f2 : env.fail_at = some 2
      · rw [if_pos f2]
        constructor
        · simp [List.chain'_cons, fail_state, h2]
        · intro s hs
          simp only [List.mem_cons, List.not_mem_nil, or_false] at hs
          rcases hs with rfl | rfl | rfl | rfl | rfl | rfl | rfl | rfl | rfl | rfl <;>
            simp [fail_state, h1, h2, h3]
      · rw [if_neg f2]
        by_cases f3 : env.fail_at = some 3
        · rw [if_pos f3]
          constructor
          · simp [List.chain'_cons, fail_state, h2]
          · intro s hs
            simp only [List.mem_cons, List.not_mem_nil, or_false] at hs
            rcases hs with rfl | rfl | rfl | rfl | rfl | rfl | rfl | rfl | rfl | rfl | rfl | rfl | rfl <;>
              simp [fail_state, h1, h2, h3]
        · rw [if_neg f3]
          constructor
          · simp [List.chain'_cons, run_ai_analysis, h2]
          · intro s hs
            simp only [List.mem_cons, List.not_mem_nil, or_false] at hs
            rcases hs with rfl | rfl | rfl | rfl | rfl | rfl | rfl | rfl | rfl | rfl | rfl | rfl | rfl | rfl | rfl | rfl | rfl <;>
              simp [run_ai_analysis, h1, h2, h3]

/-- Witness for `c6_progress_invariants` at a fault-free environment and the
freshly created run. -/
theorem c6_progress_invariants_witness :
    (initial_run.status = AnalysisStatus.pending ∧ initial_run.progress = 0 ∧
      initial_run.error_message = none) ∧
    (List.Chain' (fun a b => a.progress ≤ b.progress)
        (initial_run :: analyze_website_trace rerun_env initial_run) ∧
      ∀ s ∈ initial_run :: analyze_website_trace rerun_env initial_run,
        (s.progress = 100 ↔ s.status = AnalysisStatus.complete) ∧
        (s.error_message.isSome = true ↔ s.status = AnalysisStatus.failed)) :=
  ⟨⟨rfl, rfl, rfl⟩, c6_progress_invariants rerun_env initial_run rfl rfl rfl⟩

/-! ### Helper lemmas for the progress publisher -/

/-- A poll showing the run gone emits the not-found payload and ends the
stream. -/
lemma progress_stream_none (rest : List (Option Obs)) (p : Int)
    (s : Option AnalysisStatus) :
    progress_stream (none :: rest) p s = [SseEvent.notFound] := rfl

/-- A poll whose progress and status match the last emitted pair contributes
no event. -/
lemma progress_stream_suppress (o : Obs) (rest : List (Option Obs)) (p : Int)
    (s : Option AnalysisStatus) (h1 : o.progress = p) (h2 : some o.status = s) :
    progress_stream (some o :: rest) p s = progress_stream rest p s := by
  simp [progress_stream, h1, h2]

/-- Along any poll sequence, at most one terminal `complete` event is emitted,
and any emitted one is the final event of the stream. -/
lemma progress_stream_complete_shape :
    ∀ (polls : List (Option Obs)) (p : Int) (s : Option AnalysisStatus),
      (∀ st, s = some st → is_terminal st = false) →
      (progress_stream polls p s).countP (fun e => is_complete_event e) ≤ 1 ∧
        ∀ e ∈ (progress_stream polls p s).dropLast, is_complete_event e = false := by
  intro polls
  induction polls with
  | nil => intro p s _; simp [progress_stream]
  | cons h t ih =>
    intro p s hs
    cases h with
    | none => simp [progress_stream, is_complete_event]
    | some o =>
      by_cases hchg : o.progress ≠ p ∨ some o.status ≠ s
      · by_cases hterm : is_terminal o.status = true
        · simp only [progress_stream, if_pos hchg, if_pos hterm]
          simp [is_complete_event]
        · simp only [progress_stream, if_pos hchg, if_neg hterm]
          have hrec := ih o.progress (some o.status)
            (fun st hst => by
              injection hst with h2
              rw [← h2]
              exact Bool.eq_false_iff.mpr hterm)
          constructor
          · simpa [List.countP_cons, is_complete_event] using hrec.1
          · cases hrest : progress_stream t o.progress (some o.status) with
            | nil => simp
            | cons r rs =>
              rw [hrest] at hrec
              intro e he
              rw [List.dropLast_cons₂] at he
              rcases List.mem_cons.mp he with rfl | he2
              · rfl
              · exact hrec.2 e he2
      · simp only [progress_stream, if_neg hchg]
        exact ih p s hs

/-- When a terminal observation occurs before any missing-run observation,
exactly one terminal `complete` event is emitted. -/
lemma progress_stream_terminal_count :
    ∀ (polls : List (Option Obs)) (p : Int) (s : Option AnalysisStatus),
      (∀ st, s = some st → is_terminal st = false) →
      terminal_before_none polls = true →
      (progress_stream polls p s).countP (fun e => is_complete_event e) = 1 := by
  intro polls
  induction polls with
  | nil => intro p s _ ht; simp [terminal_before_none] at ht
  | cons h t ih =>
    intro p s hs ht
    cases h with
    | none => simp [terminal_before_none] at ht
    | some o =>
      rw [terminal_before_none, Bool.or_eq_true] at ht
      by_cases hterm : is_terminal o.status = true
      · have hchg : o.progress ≠ p ∨ some o.status ≠ s := by
          right
          intro heq
          have := hs o.status heq.symm
          rw [hterm] at this
          exact Bool.true_eq_false.mp this
        simp only [progress_stream, if_pos hchg, if_pos hterm]
        simp [is_complete_event]
      · have ht2 : terminal_before_none t = true := by
          rcases ht with ht | ht
          · exact absurd ht hterm
          · exact ht
        by_cases hchg : o.progress ≠ p ∨ some o.status ≠ s
        · simp only [progress_stream, if_pos hchg, if_neg hterm]
          have hrec := ih o.progress (some o.status)
            (fun st hst => by
              injection hst with h2
              rw [← h2]
              exact Bool.eq_false_iff.mpr hterm) ht2
          simpa [List.countP_cons, is_complete_event] using hrec
        · simp only [progress_stream, if_neg hchg]
          exact ih p s hs ht2

/-! ### Claim theorem: C5 (progress publisher) -/

/-- C5: the SSE progress publisher (a) suppresses a poll whose progress and
status both equal the last emitted pair, (b) emits at most one terminal
`complete` event and never emits one before the final event of the stream,
(c) emits exactly one terminal event whenever the polls reach a terminal
status (before any missing-run observation), and (d) emits the not-found
payload and stops when the run does not exist. -/
theorem c5_progress_publisher :
    (∀ (o : Obs) (rest : List (Option Obs)) (p : Int) (s : Option AnalysisStatus),
        o.progress = p → some o.status = s →
        progress_stream (some o :: rest) p s = progress_stream rest p s) ∧
    (∀ polls : List (Option Obs),
        (get_analysis_progress polls).countP (fun e => is_complete_event e) ≤ 1 ∧
        ∀ e ∈ (get_analysis_progress polls).dropLast, is_complete_event e = false) ∧
    (∀ polls : List (Option Obs), terminal_before_none polls = true →
        (get_analysis_progress polls).countP (fun e => is_complete_event e) = 1) ∧
    (∀ (rest : List (Option Obs)) (p : Int) (s : Option AnalysisStatus),
        progress_stream (none :: rest) p s = [SseEvent.notFound]) := by
  refine ⟨progress_stream_suppress, ?_, ?_, progress_stream_none⟩
  · intro polls
    exact progress_stream_complete_shape polls 0 none (fun st hst => by cases hst)
  · intro polls ht
    exact progress_stream_terminal_count polls 0 none (fun st hst => by cases hst) ht

/-- Concrete observations for the C5 witness. -/
def obs_mid : Obs :=
  { status := .analyzing, progress := 20, overall_score := none, results := [] }

/-- Concrete terminal observation for the C5 witness. -/
def obs_done : Obs :=
  { status := .complete, progress := 100, overall_score := some 80, results := [] }

/-- Witness for `c5_progress_publisher` at concrete poll sequences. -/
theorem c5_progress_publisher_witness :
    (obs_mid.progress = 20 ∧ some obs_mid.status = some AnalysisStatus.analyzing ∧
      progress_stream [some obs_mid, some obs_done] 20 (some AnalysisStatus.analyzing) =
        progress_stream [some obs_done] 20 (some AnalysisStatus.analyzing)) ∧
    (terminal_before_none [some obs_mid, some obs_done] = true ∧
      (get_analysis_progress [some obs_mid, some obs_done]).countP
        (fun e => is_complete_event e) = 1) :=
  ⟨⟨rfl, rfl,
    c5_progress_publisher.1 obs_mid [some obs_done] 20 (some AnalysisStatus.analyzing) rfl rfl⟩,
   ⟨by decide,
    c5_progress_publisher.2.2.1 [some obs_mid, some obs_done] (by decide)⟩⟩

/-! ### Helper lemmas for the score aggregator -/

/-- Projection of one category's score list out of `CatScores`. -/
def cat_bucket (cs : CatScores) : CheckCategory → List Int
| .ai_readiness => cs.ai_readiness
| .content => cs.content
| .structure_ => cs.structure_
| .technical => cs.technical

/-- One fold step appends the score exactly to the matching category. -/
lemma cat_bucket_add_score (r : CheckResult) (acc : CatScores) (c : CheckCategory) :
    cat_bucket (add_score acc r) c =
      cat_bucket acc c ++ (if r.check_category = c then [r.score] else []) := by
  cases hr : r.check_category <;> cases c <;> simp [add_score, cat_bucket, hr]

/-- Unfolding the filter-based bucket one result at a time. -/
lemma bucket_cons (r : CheckResult) (t : List CheckResult) (c : CheckCategory) :
    bucket (r :: t) c = (if r.check_category = c then [r.score] else []) ++ bucket t c := by
  by_cases h : r.check_category = c <;> simp [bucket, List.filter_cons, h]

/-- The grouping fold of `calculate_overall_score` computes, per category, the
filter-based bucket. -/
lemma foldl_add_score_bucket (l : List CheckResult) :
    ∀ (acc : CatScores) (c : CheckCategory),
      cat_bucket (l.foldl add_score acc) c = cat_bucket acc c ++ bucket l c := by
  induction l with
  | nil => intro acc c; simp [bucket]
  | cons r t ih =>
    intro acc c
    rw [List.foldl_cons, ih, cat_bucket_add_score, bucket_cons, List.append_assoc]

/-- The fold `category_score_lists` agrees with the spec-side buckets. -/
lemma category_score_lists_bucket (results : List CheckResult) (c : CheckCategory) :
    cat_bucket (category_score_lists results) c = bucket results c := by
  rw [category_score_lists, foldl_add_score_bucket]
  cases c <;> simp [cat_bucket]

/-- The code's per-category average agrees with the spec-side mean. -/
lemma cat_average_eq_spec (results : List CheckResult) (c : CheckCategory) :
    cat_average (bucket results c) = spec_cat_mean results c := by
  rw [cat_average, spec_cat_mean]
  cases h : bucket results c <;> simp [h]

/-- The code's weighted sum is the spec-side weighted sum at the fixed table. -/
lemma weighted_score_eq (results : List CheckResult) :
    weighted_score results = weighted_sum_w W results := by
  have ha := category_score_lists_bucket results .ai_readiness
  have hc := category_score_lists_bucket results .content
  have hst := category_score_lists_bucket results .structure_
  have ht := category_score_lists_bucket results .technical
  simp only [cat_bucket] at ha hc hst ht
  simp only [weighted_score, weighted_sum_w, all_categories, List.map_cons, List.map_nil,
    List.sum_cons, List.sum_nil, W]
  rw [ha, hc, hst, ht, cat_average_eq_spec, cat_average_eq_spec, cat_average_eq_spec,
    cat_average_eq_spec]
  ring

/-- Every score in a bucket is the score of some result in the list. -/
lemma mem_bucket {results : List CheckResult} {c : CheckCategory} {s : Int}
    (hs : s ∈ bucket results c) : ∃ r, r ∈ results ∧ r.score = s := by
  rw [bucket] at hs
  rcases List.mem_map.mp hs with ⟨r, hr, rfl⟩
  exact ⟨r, (List.mem_filter.mp hr).1, rfl⟩

/-- A category mean over nonnegative scores is nonnegative. -/
lemma spec_cat_mean_nonneg (results : List CheckResult) (c : CheckCategory)
    (h : ∀ r ∈ results, 0 ≤ r.score) : 0 ≤ spec_cat_mean results c := by
  rw [spec_cat_mean]
  split_ifs with he
  · norm_num
  · apply div_nonneg
    · apply List.sum_nonneg
      intro x hx
      rcases List.mem_map.mp hx with ⟨s, hs, rfl⟩
      rcases mem_bucket hs with ⟨r, hr, heq⟩
      subst heq
      exact_mod_cast h r hr
    · exact Nat.cast_nonneg _

/-- A category mean over scores bounded by 100 is at most 100. -/
lemma spec_cat_mean_le (results : List CheckResult) (c : CheckCategory)
    (h : ∀ r ∈ results, r.score ≤ 100) : spec_cat_mean results c ≤ 100 := by
  rw [spec_cat_mean]
  split_ifs with he
  · norm_num
  · have hlen : 0 < ((bucket results c).length : ℚ) := by
      exact_mod_cast List.length_pos.mpr he
    rw [div_le_iff₀ hlen]
    have hb : ∀ x ∈ (bucket results c).map (fun s : Int => (s : ℚ)), x ≤ 100 := by
      intro x hx
      rcases List.mem_map.mp hx with ⟨s, hs, rfl⟩
      rcases mem_bucket hs with ⟨r, hr, heq⟩
      subst heq
      exact_mod_cast h r hr
    calc ((bucket results c).map (fun s : Int => (s : ℚ))).sum
        ≤ ((bucket results c).map (fun s : Int => (s : ℚ))).length • (100 : ℚ) :=
          List.sum_le_card_nsmul _ _ hb
      _ = 100 * ((bucket results c).length : ℚ) := by
          rw [List.length_map, nsmul_eq_mul]; ring

/-- The generalised weighted sum is nonnegative for nonnegative weights and
scores. -/
lemma weighted_sum_w_nonneg (w : CheckCategory → ℚ) (results : List CheckResult)
    (hw : ∀ c, 0 ≤ w c) (hs : ∀ r ∈ results, 0 ≤ r.score) :
    0 ≤ weighted_sum_w w results := by
  have h0 : ∀ c, 0 ≤ w c * spec_cat_mean results c :=
    fun c => mul_nonneg (hw c) (spec_cat_mean_nonneg results c hs)
  simp only [weighted_sum_w, all_categories, List.map_cons, List.map_nil, List.sum_cons,
    List.sum_nil, add_zero]
  exact add_nonneg (h0 _) (add_nonneg (h0 _) (add_nonneg (h0 _) (h0 _)))

/-- The generalised weighted sum is at most 100 when the nonnegative weights
sum to 1 and all scores are at most 100. -/
lemma weighted_sum_w_le (w : CheckCategory → ℚ) (results : List CheckResult)
    (hw : ∀ c, 0 ≤ w c)
    (hsum : w .ai_readiness + w .content + w .structure_ + w .technical = 1)
    (hs : ∀ r ∈ results, r.score ≤ 100) :
    weighted_sum_w w results ≤ 100 := by
  have key : ∀ c, w c * spec_cat_mean results c ≤ w c * 100 :=
    fun c => mul_le_mul_of_nonneg_left (spec_cat_mean_le results c hs) (hw c)
  simp only [weighted_sum_w, all_categories, List.map_cons, List.map_nil, List.sum_cons,
    List.sum_nil, add_zero]
  have k1 := key .ai_readiness
  have k2 := key .content
  have k3 := key .structure_
  have k4 := key .technical
  nlinarith [k1, k2, k3, k4, hsum]

/-- Truncation toward zero is the floor on nonnegative arguments. -/
lemma py_int_eq_floor (x : ℚ) (h : 0 ≤ x) : py_int x = Int.floor x := by
  rw [py_int, if_pos h]

/-- Bounds on the truncated value. -/
lemma py_int_bounds (x : ℚ) (h0 : 0 ≤ x) (h1 : x ≤ 100) :
    0 ≤ py_int x ∧ py_int x ≤ 100 := by
  rw [py_int_eq_floor x h0]
  constructor
  · exact Int.le_floor.mpr (by exact_mod_cast h0)
  · have h2 : (Int.floor x : ℚ) ≤ 100 := le_trans (Int.floor_le x) h1
    exact_mod_cast h2

/-- A category with an empty bucket contributes exactly `100 * weight` to the
weighted sum (proved by cases over the four categories). -/
lemma weighted_sum_w_decompose (w : CheckCategory → ℚ) (results : List CheckResult)
    (c : CheckCategory) (h : bucket results c = []) :
    weighted_sum_w w results = 100 * w c + rest_weighted_sum w results c := by
  have hm : spec_cat_mean results c = 100 := by rw [spec_cat_mean, if_pos h]
  cases c <;>
    (simp [weighted_sum_w, rest_weighted_sum, all_categories, hm]; ring)

/-! ### Claim theorems: C1 and C8 (score aggregation) -/

/-- C1: for every list of check results whose scores satisfy the data-model
bound `0 ≤ score` (which makes Python's truncating `int()` agree with the
floor), the code's overall score is exactly the floor of the weighted sum of
the four per-category arithmetic means (empty category defaulting to 100),
with weights 0.40 / 0.35 / 0.15 / 0.10 given by the table `W`. -/
theorem c1_overall_score_floor (results : List CheckResult)
    (h : ∀ r ∈ results, 0 ≤ r.score) :
    calculate_overall_score results = Int.floor (weighted_sum_w W results) := by
  have hW : ∀ c, 0 ≤ W c := by intro c; cases c <;> norm_num [W]
  have h0 : 0 ≤ weighted_sum_w W results := weighted_sum_w_nonneg W results hW h
  rw [calculate_overall_score, weighted_score_eq, py_int_eq_floor _ h0]

/-- Witness for `c1_overall_score_floor` at the two fixed AI-stage results. -/
theorem c1_overall_score_floor_witness :
    (∀ r ∈ [chatgpt_result, perplexity_result], 0 ≤ r.score) ∧
    calculate_overall_score [chatgpt_result, perplexity_result] =
      Int.floor (weighted_sum_w W [chatgpt_result, perplexity_result]) :=
  ⟨by decide, c1_overall_score_floor [chatgpt_result, perplexity_result] (by decide)⟩

/-- Weight table of the C8 counterexample: sums to 1 but has a negative entry. -/
def w_cex : CheckCategory → ℚ
| .ai_readiness => 2
| .content => -1
| .structure_ => 0
| .technical => 0

/-- An ai_readiness result with score 100, for the C8 counterexample. -/
def cex_ai_result : CheckResult :=
  { check_name := "cex-ai"
    check_category := .ai_readiness
    status := .pass_check
    score := 100
    details := []
    recommendations := none
    impact_level := .low
    fix_difficulty := .easy
    fix_time_estimate := none }

/-- A content result with score 0, for the C8 counterexample. -/
def cex_content_result : CheckResult :=
  { check_name := "cex-content"
    check_category := .content
    status := .fail
    score := 0
    details := []
    recommendations := none
    impact_level := .high
    fix_difficulty := .easy
    fix_time_estimate := none }

/-- C8 counterexample: a weight set summing to 1.0 (but containing a negative
weight) and check results with all scores in [0,100] for which the aggregator
returns 200, outside [0,100]; nonnegativity of the weights is a necessary
additional hypothesis. -/
theorem c8_counterexample :
    (w_cex .ai_readiness + w_cex .content + w_cex .structure_ + w_cex .technical = 1) ∧
    (∀ r ∈ [cex_ai_result, cex_content_result], 0 ≤ r.score ∧ r.score ≤ 100) ∧
    overall_score_w w_cex [cex_ai_result, cex_content_result] = 200 ∧
    (100 : Int) < overall_score_w w_cex [cex_ai_result, cex_content_result] := by
  have b1 : bucket [cex_ai_result, cex_content_result] CheckCategory.ai_readiness = [100] := by
    decide
  have b2 : bucket [cex_ai_result, cex_content_result] CheckCategory.content = [0] := by decide
  have b3 : bucket [cex_ai_result, cex_content_result] CheckCategory.structure_ = [] := by decide
  have b4 : bucket [cex_ai_result, cex_content_result] CheckCategory.technical = [] := by decide
  have hsum : weighted_sum_w w_cex [cex_ai_result, cex_content_result] = 200 := by
    simp only [weighted_sum_w, all_categories, List.map_cons, List.map_nil, List.sum_cons,
      List.sum_nil, spec_cat_mean, b1, b2, b3, b4]
    norm_num [w_cex]
  have hval : overall_score_w w_cex [cex_ai_result, cex_content_result] = 200 := by
    rw [overall_score_w, hsum, py_int]
    norm_num
  refine ⟨by norm_num [w_cex], by decide, hval, by rw [hval]; norm_num⟩

/-- C8 (amended): for every NONNEGATIVE weight table summing to 1.0 and every
result list with scores in [0,100], the aggregated overall score is in
[0,100]; a category with zero results contributes exactly `100 * weight` to
the weighted sum; the code's fixed table is nonnegative and sums to 1.0, and
`calculate_overall_score` is the aggregator at that table. -/
theorem c8_weighted_bounds :
    (∀ (w : CheckCategory → ℚ) (results : List CheckResult),
      (∀ c, 0 ≤ w c) →
      w .ai_readiness + w .content + w .structure_ + w .technical = 1 →
      (∀ r ∈ results, 0 ≤ r.score ∧ r.score ≤ 100) →
      0 ≤ overall_score_w w results ∧ overall_score_w w results ≤ 100) ∧
    (∀ (w : CheckCategory → ℚ) (results : List CheckResult) (c : CheckCategory),
      bucket results c = [] →
      weighted_sum_w w results = 100 * w c + rest_weighted_sum w results c) ∧
    ((∀ c, 0 ≤ W c) ∧ W .ai_readiness + W .content + W .structure_ + W .technical = 1) ∧
    (∀ results : List CheckResult, calculate_overall_score results = overall_score_w W results) := by
  refine ⟨?_, weighted_sum_w_decompose, ⟨?_, by norm_num [W]⟩, ?_⟩
  · intro w results hw hsum hs
    have h0 := weighted_sum_w_nonneg w results hw (fun r hr => (hs r hr).1)
    have h1 := weighted_sum_w_le w results hw hsum (fun r hr => (hs r hr).2)
    exact py_int_bounds _ h0 h1
  · intro c; cases c <;> norm_num [W]
  · intro results
    rw [calculate_overall_score, overall_score_w, weighted_score_eq]

/-- Witness for `c8_weighted_bounds` at the fixed table and the two AI-stage
results, and for the decomposition at an empty technical bucket. -/
theorem c8_weighted_bounds_witness :
    ((∀ c, 0 ≤ W c) ∧ W .ai_readiness + W .content + W .structure_ + W .technical = 1 ∧
      (∀ r ∈ [chatgpt_result, perplexity_result], 0 ≤ r.score ∧ r.score ≤ 100)) ∧
    (0 ≤ overall_score_w W [chatgpt_result, perplexity_result] ∧
      overall_score_w W [chatgpt_result, perplexity_result] ≤ 100) ∧
    (bucket [chatgpt_result, perplexity_result] CheckCategory.technical = [] ∧
      weighted_sum_w W [chatgpt_result, perplexity_result] =
        100 * W CheckCategory.technical +
          rest_weighted_sum W [chatgpt_result, perplexity_result] CheckCategory.technical) :=
  ⟨⟨c8_weighted_bounds.2.2.1.1, c8_weighted_bounds.2.2.1.2, by decide⟩,
   c8_weighted_bounds.1 W [chatgpt_result, perplexity_result]
     c8_weighted_bounds.2.2.1.1 c8_weighted_bounds.2.2.1.2 (by decide),
   ⟨by decide,
    c8_weighted_bounds.2.1 W [chatgpt_result, perplexity_result] CheckCategory.technical
      (by decide)⟩⟩

/-! ### Helper lemmas linking the direct-answer loop to the sibling pairs -/

/-- Step equation for the counted and qualified pairs on a page with at least
two elements. -/
lemma counted_qualified_cons (e nxt : Element) (rest2 : List Element) :
    (counted_pairs (e :: nxt :: rest2) =
      (if (is_heading e && is_question_text e.text) = true then
         (if nxt.tag = "p" then [(e, nxt)] else [])
       else []) ++ counted_pairs (nxt :: rest2)) ∧
    (qualified_pairs (e :: nxt :: rest2) =
      (if (is_heading e && is_question_text e.text) = true then
         (if nxt.tag = "p" then
            (if 40 ≤ (py_words nxt.text).length ∧ (py_words nxt.text).length ≤ 60 then
               [(e, nxt)] else [])
          else [])
       else []) ++ qualified_pairs (nxt :: rest2)) := by
  constructor
  · by_cases h1 : (is_heading e && is_question_text e.text) = true <;>
      by_cases h2 : nxt.tag = "p" <;>
        simp [counted_pairs, question_pairs, List.filter_cons, h1, h2]
  · by_cases h1 : (is_heading e && is_question_text e.text) = true <;>
      by_cases h2 : nxt.tag = "p" <;>
        by_cases h3 : 40 ≤ (py_words nxt.text).length ∧ (py_words nxt.text).length ≤ 60 <;>
          simp [qualified_pairs, counted_pairs, question_pairs, List.filter_cons, h1, h2, h3]

/-- Step equation for the accumulation loop on a page with at least two
elements. -/
lemma question_records_cons (e nxt : Element) (rest2 : List Element) :
    question_records (e :: nxt :: rest2) =
      (if (is_heading e && is_question_text e.text) = true then
         (if nxt.tag = "p" then
            [{ question := e.text
               has_direct_answer :=
                 decide (40 ≤ (py_words nxt.text).length ∧ (py_words nxt.text).length ≤ 60)
               answer_length := (py_words nxt.text).length }]
          else [])
       else []) ++ question_records (nxt :: rest2) := by
  by_cases h1 : (is_heading e && is_question_text e.text) = true <;>
    by_cases h2 : nxt.tag = "p" <;>
      simp [question_records, h1, h2]

/-- The loop's denominator counts exactly the interrogative headings whose
following sibling is a paragraph, and its numerator exactly those whose
paragraph has 40-60 words. -/
lemma question_records_counted (page : List Element) :
    (question_records page).length = (counted_pairs page).length ∧
    ((question_records page).filter (fun q => q.has_direct_answer)).length =
      (qualified_pairs page).length := by
  induction page with
  | nil => constructor <;> rfl
  | cons e rest ih =>
    cases rest with
    | nil =>
      constructor <;>
        (by_cases h1 : (is_heading e && is_question_text e.text) = true <;>
          simp [question_records, counted_pairs, question_pairs, qualified_pairs, h1])
    | cons nxt rest2 =>
      have hq := question_records_cons e nxt rest2
      have hcq := counted_qualified_cons e nxt rest2
      constructor
      · rw [hq, hcq.1, List.length_append, List.length_append, ih.1]
        congr 1
        by_cases h1 : (is_heading e && is_question_text e.text) = true <;>
          by_cases h2 : nxt.tag = "p" <;> simp [h1, h2]
      · rw [hq, hcq.2, List.filter_append, List.length_append, List.length_append, ih.2]
        congr 1
        by_cases h1 : (is_heading e && is_question_text e.text) = true <;>
          by_cases h2 : nxt.tag = "p" <;>
            by_cases h3 : 40 ≤ (py_words nxt.text).length ∧ (py_words nxt.text).length ≤ 60 <;>
              simp [h1, h2, h3, List.filter_cons]

/-! ### Claim theorems: C7 and C10 (direct-answer check) -/

/-- C7 counterexample page: two interrogative headings, the first followed by a
40-60-word paragraph, the second followed by a `div`. -/
def c7_page : List Element :=
  [⟨"h2", "What is AEO?"⟩, ⟨"p", mk_words 50⟩,
   ⟨"h2", "Why does it matter?"⟩, ⟨"div", "irrelevant"⟩]

/-- C7 counterexample: on `c7_page` only one of the two interrogative headings
has a qualifying direct answer, so the claimed case split demands `warn`/60,
but the code returns `pass`/100 (the div-followed heading is silently dropped
from the denominator). -/
theorem c7_counterexample :
    (check_direct_answers c7_page).status = CheckStatus.pass_check ∧
    (check_direct_answers c7_page).score = 100 ∧
    spec_direct_answers_verdict c7_page = (CheckStatus.warn, 60) ∧
    (c7_page.filter (fun e => is_heading e && is_question_text e.text)).length = 2 := by
  refine ⟨?_, ?_, ?_, ?_⟩ <;> decide

/-- C7 (amended): the verdict of the direct-answer check is graded by the
counted headings — interrogative headings whose immediately following sibling
is a paragraph — rather than by all interrogative headings: no counted heading
→ `fail`/0; all counted qualify (40-60-word paragraph) → `pass`/100; some but
not all → `warn`/60; none → `fail`/20. -/
theorem c7_direct_answers_graded (page : List Element) :
    ((counted_pairs page).length = 0 →
      (check_direct_answers page).status = CheckStatus.fail ∧
        (check_direct_answers page).score = 0) ∧
    (0 < (counted_pairs page).length →
      (qualified_pairs page).length = (counted_pairs page).length →
      (check_direct_answers page).status = CheckStatus.pass_check ∧
        (check_direct_answers page).score = 100) ∧
    (0 < (qualified_pairs page).length →
      (qualified_pairs page).length < (counted_pairs page).length →
      (check_direct_answers page).status = CheckStatus.warn ∧
        (check_direct_answers page).score = 60) ∧
    (0 < (counted_pairs page).length → (qualified_pairs page).length = 0 →
      (check_direct_answers page).status = CheckStatus.fail ∧
        (check_direct_answers page).score = 20) := by
  obtain ⟨hlen, hfil⟩ := question_records_counted page
  refine ⟨?_, ?_, ?_, ?_⟩
  · intro h0
    have hempty : question_records page = [] :=
      List.length_eq_zero.mp (by rw [hlen]; exact h0)
    simp [check_direct_answers, hempty]
  · intro hpos hall
    have h1 : (question_records page).isEmpty = false := by
      rw [List.isEmpty_eq_false, ← List.length_pos, hlen]; exact hpos
    have h2 : ((question_records page).filter (fun q => q.has_direct_answer)).length =
        (question_records page).length := by
      rw [hfil, hall, hlen]
    simp [check_direct_answers, h1, h2]
  · intro hk hlt
    have hpos : 0 < (counted_pairs page).length := lt_of_le_of_lt (Nat.zero_le _) hlt
    have h1 : (question_records page).isEmpty = false := by
      rw [List.isEmpty_eq_false, ← List.length_pos, hlen]; exact hpos
    have h2 : ¬((question_records page).filter (fun q => q.has_direct_answer)).length =
        (question_records page).length := by
      rw [hfil, hlen]; omega
    have h3 : 0 < ((question_records page).filter (fun q => q.has_direct_answer)).length := by
      rw [hfil]; exact hk
    simp [check_direct_answers, h1, h2, h3]
  · intro hpos hk
    have h1 : (question_records page).isEmpty = false := by
      rw [List.isEmpty_eq_false, ← List.length_pos, hlen]; exact hpos
    have h2 : ¬((question_records page).filter (fun q => q.has_direct_answer)).length =
        (question_records page).length := by
      rw [hfil, hlen]; omega
    have h3 : ¬0 < ((question_records page).filter (fun q => q.has_direct_answer)).length := by
      rw [hfil]; omega
    simp [check_direct_answers, h1, h2, h3]

/-- Minimal page with one counted, qualifying heading, for the C7 witness. -/
def c7_small : List Element := [⟨"h2", "What is AEO?"⟩, ⟨"p", mk_words 50⟩]

/-- Witness for `c7_direct_answers_graded` at a page where every counted
heading qualifies. -/
theorem c7_direct_answers_graded_witness :
    (0 < (counted_pairs c7_small).length ∧
      (qualified_pairs c7_small).length = (counted_pairs c7_small).length) ∧
    ((check_direct_answers c7_small).status = CheckStatus.pass_check ∧
      (check_direct_answers c7_small).score = 100) :=
  ⟨⟨by decide, by decide⟩,
   (c7_direct_answers_graded c7_small).2.1 (by decide) (by decide)⟩

/-- C10: the loop counts an interrogative heading in neither the numerator nor
the denominator unless its immediately following sibling is a paragraph; and a
page on which every interrogative heading is followed by a non-paragraph
sibling yields exactly the result of a page with no question-based headings
(`fail`, score 0). -/
theorem c10_non_paragraph_excluded :
    (∀ page : List Element,
      (question_records page).length = (counted_pairs page).length ∧
      ((question_records page).filter (fun q => q.has_direct_answer)).length =
        (qualified_pairs page).length) ∧
    (∀ page : List Element,
      (∀ pr ∈ page.zip page.tail,
        (is_heading pr.1 && is_question_text pr.1.text) = true → pr.2.tag ≠ "p") →
      check_direct_answers page = check_direct_answers []) := by
  refine ⟨question_records_counted, ?_⟩
  intro page h
  have hempty : counted_pairs page = [] := by
    rw [counted_pairs, List.filter_eq_nil_iff]
    intro pr hpr
    obtain ⟨hz, hcond⟩ := List.mem_filter.mp hpr
    have := h pr hz (by simpa using hcond)
    simpa using this
  have hq : question_records page = [] :=
    List.length_eq_zero.mp (by rw [(question_records_counted page).1, hempty]; rfl)
  simp [check_direct_answers, hq, question_records]

/-- Page whose only interrogative heading is followed by a `div`, for the C10
witness. -/
def c10_page : List Element := [⟨"h2", "What is AEO?"⟩, ⟨"div", "x"⟩]

/-- Witness for `c10_non_paragraph_excluded` at a concrete page. -/
theorem c10_non_paragraph_excluded_witness :
    (∀ pr ∈ c10_page.zip c10_page.tail,
      (is_heading pr.1 && is_question_text pr.1.text) = true → pr.2.tag ≠ "p") ∧
    check_direct_answers c10_page = check_direct_answers [] :=
  ⟨by decide, c10_non_paragraph_excluded.2 c10_page (by decide)⟩
